import Mathlib

/-!
Shallow embedding of the ChatList concurrent multi-provider dispatch engine
(`src/network.py`, with `get_api_key` from `src/config.py` and the `Model`
record from `src/models.py`).

Modelling conventions:
* Decoded JSON response bodies and outbound JSON request bodies are values of
  the inductive type `Json` below.  JSON numbers are modelled as rationals
  (the literal `0.7` in the source is the rational 7/10).
* Python runtime exceptions raised while the parsing code indexes into the
  decoded body (`KeyError`, `TypeError`, `IndexError`, `AttributeError`) are
  modelled with `Except PyErr`; the enclosing `try`/`except Exception` of each
  sender catches them and turns them into the "Неожиданная ошибка" message,
  exactly as in the source.  `PyErr.pyMsg` stands for Python's `str(e)`.
* The HTTP transport (`requests.post` + `raise_for_status` + `.json()`) is a
  parameter `http : HttpRequest → HttpOutcome`: one call, whose outcome is
  either a decoded 2xx JSON body, a `requests.exceptions.Timeout`, some other
  `requests.exceptions.RequestException` (connection/DNS/TLS failures and the
  HTTP-status error raised by `raise_for_status`), or any other exception
  (modelled with the text that `str(e)` would produce).
* Each sender additionally returns the list of HTTP requests it issued; this
  is the call-count instrumentation the specification asks for and changes no
  control flow.
* Environment variables (`os.getenv`) are a parameter `env : String → Option
  String`.
* Threads: `send_to_all_models` runs one worker per model and the aggregation
  list records results in completion order under a lock; the embedding
  produces the per-model results in input order and theorems quantify over an
  arbitrary permutation (the completion order) of that list.
* `strLower` / `strReplaceChar` model Python's `str.lower` / `str.replace`
  character by character (ASCII case folding, which covers every marker and
  model-name substring the source matches on; the only `str.replace` in the
  source has a one-character pattern and replacement).
-/

/-- Decoded JSON values (the result of `response.json()`), and also the
outbound request bodies passed as `json=data`. -/
inductive Json where
  | null : Json
  | bool (b : Bool) : Json
  | num (q : ℚ) : Json
  | str (s : String) : Json
  | arr (elems : List Json) : Json
  | obj (fields : List (String × Json)) : Json

/-- The Python exceptions that the parsing code in the senders can raise while
it indexes into a decoded JSON value. -/
inductive PyErr where
  | keyError (k : String) : PyErr
  | typeError (m : String) : PyErr
  | indexError : PyErr
  | attributeError (m : String) : PyErr
deriving DecidableEq, Repr

/-- Model of Python's `str(e)` for the exceptions above (`str(KeyError(k))`
is the repr of the key, i.e. the key in single quotes). -/
def PyErr.pyMsg : PyErr → String
  | .keyError k => "\x27" ++ k ++ "\x27"
  | .typeError m => m
  | .indexError => "list index out of range"
  | .attributeError m => m

/-- `ps` is a leading run of `cs` (character-list version). -/
def charsLeadRun : List Char → List Char → Bool
  | [], _ => true
  | _ :: _, [] => false
  | p :: ps, c :: cs => p == c && charsLeadRun ps cs

/-- `needle` occurs as a contiguous run inside `haystack`
(character-list version). -/
def charsHaveRun (needle : List Char) : List Char → Bool
  | [] => needle.isEmpty
  | c :: cs => charsLeadRun needle (c :: cs) || charsHaveRun needle cs

/-- `needle` occurs as a contiguous substring of `haystack`; model of
Python's `needle in haystack` on strings. -/
def strContains (haystack needle : String) : Bool :=
  charsHaveRun needle.data haystack.data

/-- Model of Python's `str.lower`: ASCII case folding, character by
character. -/
def strLower (s : String) : String :=
  ⟨s.data.map Char.toLower⟩

/-- Model of Python's `str.replace` for a one-character pattern and a
one-character replacement (the source only uses `.replace(' ', '-')`). -/
def strReplaceChar (s : String) (a b : Char) : String :=
  ⟨s.data.map (fun c => if c == a then b else c)⟩

/-- Model of Python's `key in value` for a decoded JSON value: key membership
on objects, element membership on arrays (a decoded JSON element equals the
string `k` exactly when it is that string), substring test on strings,
`TypeError` otherwise. -/
def Json.hasKey (j : Json) (k : String) : Except PyErr Bool :=
  match j with
  | .obj fields => .ok (fields.any (fun p => p.fst == k))
  | .arr elems =>
      .ok (elems.any (fun e => match e with | .str s => s == k | _ => false))
  | .str s => .ok (strContains s k)
  | _ => .error (.typeError "argument of type is not iterable")

/-- Model of Python's `value[k]` with a string key: lookup on objects
(`KeyError` on a miss; keys of a decoded JSON object are distinct, the first
match is the match), `TypeError` on anything else. -/
def Json.getItemS (j : Json) (k : String) : Except PyErr Json :=
  match j with
  | .obj fields =>
      match fields.find? (fun p => p.fst == k) with
      | some p => .ok p.snd
      | none => .error (.keyError k)
  | _ => .error (.typeError "indices must be integers")

/-- Model of Python's `value[i]` with a non-negative integer index: list
indexing (`IndexError` past the end), one-character string on strings, a
`KeyError` on objects (keys of a decoded JSON object are strings), `TypeError`
otherwise. -/
def Json.getItemI (j : Json) (i : Nat) : Except PyErr Json :=
  match j with
  | .arr elems =>
      match elems.get? i with
      | some e => .ok e
      | none => .error .indexError
  | .str s =>
      match s.data.get? i with
      | some c => .ok (.str (String.singleton c))
      | none => .error .indexError
  | .obj _ => .error (.keyError (toString i))
  | _ => .error (.typeError "object is not subscriptable")

/-- Model of Python's `len(value)`: length of arrays, strings and objects,
`TypeError` otherwise. -/
def Json.pyLen (j : Json) : Except PyErr Nat :=
  match j with
  | .arr elems => .ok elems.length
  | .obj fields => .ok fields.length
  | .str s => .ok s.length
  | _ => .error (.typeError "object has no len")

mutual

/-- Model of Python's `repr` on a decoded JSON value, as used (through `str`)
on containers.  Strings are wrapped in single quotes (escaping of quote
characters inside the string is not modelled); numbers print their integer
value when integral (the claims exercise no non-integral number here). -/
def Json.pyRepr : Json → String
  | .null => "None"
  | .bool true => "True"
  | .bool false => "False"
  | .num q => if q.den = 1 then toString q.num else toString q
  | .str s => "\x27" ++ s ++ "\x27"
  | .arr elems => "[" ++ Json.pyReprElems elems ++ "]"
  | .obj fields => "\x7b" ++ Json.pyReprFields fields ++ "\x7d"

/-- Comma-separated reprs of the elements of a decoded JSON array. -/
def Json.pyReprElems : List Json → String
  | [] => ""
  | [x] => x.pyRepr
  | x :: y :: rest => x.pyRepr ++ ", " ++ Json.pyReprElems (y :: rest)

/-- Comma-separated `'key': repr` entries of a decoded JSON object. -/
def Json.pyReprFields : List (String × Json) → String
  | [] => ""
  | [(k, v)] => "\x27" ++ k ++ "\x27: " ++ v.pyRepr
  | (k, v) :: y :: rest =>
      "\x27" ++ k ++ "\x27: " ++ v.pyRepr ++ ", " ++ Json.pyReprFields (y :: rest)

end

/-- Model of Python's `str` on a decoded JSON value: the string itself for
strings, the repr otherwise. -/
def Json.pyStr (j : Json) : String :=
  match j with
  | .str s => s
  | _ => j.pyRepr

/-- `models.Model`: id, name, API URL, environment-variable identifier of the
API key, active flag. -/
structure Model where
  id : Int
  name : String
  api_url : String
  api_id : String
  is_active : Int
deriving DecidableEq, Repr

/-- `config.get_api_key`: `os.getenv(api_id, '')` over the process
environment `env`. -/
def get_api_key (env : String → Option String) (api_id : String) : String :=
  (env api_id).getD ""

/-- `network.DEFAULT_TIMEOUT`. -/
def DEFAULT_TIMEOUT : Nat := 30

/-- `network.detect_api_type`: classify an endpoint URL into
'openai' / 'deepseek' / 'groq' / 'generic' by case-insensitive substring
match, first match wins. -/
def detect_api_type (api_url : String) : String :=
  let url_lower := strLower api_url
  if strContains url_lower "openai.com" then "openai"
  else if strContains url_lower "deepseek.com" then "deepseek"
  else if strContains url_lower "groq.com" then "groq"
  else "generic"

/-- One outbound HTTP POST as issued by `requests.post(url, headers=headers,
json=data, timeout=timeout)`. -/
structure HttpRequest where
  url : String
  headers : List (String × String)
  body : Json
  timeout : Nat

/-- Outcome of one transport call, i.e. of `requests.post` followed by
`response.raise_for_status()` and `response.json()`:
* `ok body` — 2xx status and a decoded JSON body;
* `timeout` — `requests.exceptions.Timeout`;
* `requestError msg` — any other `requests.exceptions.RequestException`
  (connection/DNS/TLS failure, or the HTTP-status error raised by
  `raise_for_status`), with `msg` standing for `str(e)`;
* `otherError msg` — any other exception, with `msg` standing for `str(e)`. -/
inductive HttpOutcome where
  | ok (body : Json) : HttpOutcome
  | timeout : HttpOutcome
  | requestError (msg : String) : HttpOutcome
  | otherError (msg : String) : HttpOutcome

/-- The headers built identically by all four senders:
bearer authorization plus JSON content type. -/
def auth_headers (api_key : String) : List (String × String) :=
  [("Authorization", "Bearer " ++ api_key), ("Content-Type", "application/json")]

/-- The response-extraction block repeated verbatim in the OpenAI, DeepSeek
and Groq senders (network.py lines 93-96, 142-145, 199-202):

    if 'choices' in result and len(result['choices']) > 0:
        return True, result['choices'][0]['message']['content']
    else:
        return False, "Неожиданный формат ответа от API"

Exceptions raised while indexing propagate to the sender's `except` clauses. -/
def extract_chat_content (result : Json) : Except PyErr (Bool × String) :=
  match result.hasKey "choices" with
  | .error e => .error e
  | .ok false => .ok (false, "Неожиданный формат ответа от API")
  | .ok true =>
      match result.getItemS "choices" with
      | .error e => .error e
      | .ok choices =>
          match choices.pyLen with
          | .error e => .error e
          | .ok n =>
              if n > 0 then
                match choices.getItemI 0 with
                | .error e => .error e
                | .ok choice0 =>
                    match choice0.getItemS "message" with
                    | .error e => .error e
                    | .ok msg =>
                        match msg.getItemS "content" with
                        | .error e => .error e
                        | .ok content => .ok (true, content.pyStr)
              else .ok (false, "Неожиданный формат ответа от API")

/-- The `elif`/`else` tail of the generic sender's extraction block
(network.py lines 253-258): top-level 'content', then top-level 'text', then
the malformed-response message. -/
def extract_generic_fallback (result : Json) : Except PyErr (Bool × String) :=
  match result.hasKey "content" with
  | .error e => .error e
  | .ok true =>
      match result.getItemS "content" with
      | .error e => .error e
      | .ok v => .ok (true, v.pyStr)
  | .ok false =>
      match result.hasKey "text" with
      | .error e => .error e
      | .ok true =>
          match result.getItemS "text" with
          | .error e => .error e
          | .ok v => .ok (true, v.pyStr)
      | .ok false => .ok (false, "Неожиданный формат ответа от API")

/-- The generic sender's response-extraction block (network.py lines
247-258):

    if 'choices' in result and len(result['choices']) > 0:
        choice = result['choices'][0]
        if 'message' in choice:
            return True, choice['message'].get('content', str(choice))
        return True, str(choice)
    elif 'content' in result: ...
    elif 'text' in result: ...
    else: return False, "Неожиданный формат ответа от API"

`dict.get` exists only on dicts; on any other value of `choice['message']`
the attribute access raises `AttributeError`. -/
def extract_generic_content (result : Json) : Except PyErr (Bool × String) :=
  match result.hasKey "choices" with
  | .error e => .error e
  | .ok false => extract_generic_fallback result
  | .ok true =>
      match result.getItemS "choices" with
      | .error e => .error e
      | .ok choices =>
          match choices.pyLen with
          | .error e => .error e
          | .ok n =>
              if n > 0 then
                match choices.getItemI 0 with
                | .error e => .error e
                | .ok choice =>
                    match choice.hasKey "message" with
                    | .error e => .error e
                    | .ok false => .ok (true, choice.pyStr)
                    | .ok true =>
                        match choice.getItemS "message" with
                        | .error e => .error e
                        | .ok msg =>
                            match msg with
                            | .obj fields =>
                                match fields.find? (fun p => p.fst == "content") with
                                | some p => .ok (true, p.snd.pyStr)
                                | none => .ok (true, choice.pyStr)
                            | _ =>
                                .error (.attributeError "object has no attribute get")
              else extract_generic_fallback result

/-- Model-id heuristic of the OpenAI sender (network.py lines 66-73): match
on the display name lowercased with spaces replaced by hyphens. -/
def openai_model_id (model : Model) : String :=
  let model_name := strReplaceChar (strLower model.name) ' ' '-' 
  if strContains model_name "gpt-4" then "gpt-4"
  else if strContains model_name "gpt-3.5" then "gpt-3.5-turbo"
  else "gpt-3.5-turbo"

/-- Model-id heuristic of the Groq sender (network.py lines 173-180): match
on the display name lowercased. -/
def groq_model_id (model : Model) : String :=
  let model_name := strLower model.name
  if strContains model_name "llama" then "llama3-8b-8192"
  else if strContains model_name "mixtral" then "mixtral-8x7b-32768"
  else "llama3-8b-8192"

/-- The `data` payload of the OpenAI sender (network.py lines 75-81). -/
def openai_data (model : Model) (prompt : String) : Json :=
  .obj [("model", .str (openai_model_id model)),
        ("messages", .arr [.obj [("role", .str "user"), ("content", .str prompt)]]),
        ("temperature", .num (7 / 10))]

/-- The `data` payload of the DeepSeek sender (network.py lines 124-130). -/
def deepseek_data (prompt : String) : Json :=
  .obj [("model", .str "deepseek-chat"),
        ("messages", .arr [.obj [("role", .str "user"), ("content", .str prompt)]]),
        ("temperature", .num (7 / 10))]

/-- The `data` payload of the Groq sender (network.py lines 182-187): no
temperature, `model` key after `messages`. -/
def groq_data (model : Model) (prompt : String) : Json :=
  .obj [("messages", .arr [.obj [("role", .str "user"), ("content", .str prompt)]]),
        ("model", .str (groq_model_id model))]

/-- The `data` payload of the generic sender (network.py lines 230-235): no
temperature, display name used verbatim as the model id. -/
def generic_data (model : Model) (prompt : String) : Json :=
  .obj [("model", .str model.name),
        ("messages", .arr [.obj [("role", .str "user"), ("content", .str prompt)]])]

/-- `network.send_request_to_openai`.  The second component of the result is
the list of HTTP requests issued (call instrumentation). -/
def send_request_to_openai (http : HttpRequest → HttpOutcome) (model : Model)
    (prompt : String) (api_key : String) (timeout : Nat) :
    (Bool × String) × List HttpRequest :=
  let req : HttpRequest :=
    { url := model.api_url, headers := auth_headers api_key,
      body := openai_data model prompt, timeout := timeout }
  match http req with
  | .ok result =>
      ((match extract_chat_content result with
        | .ok r => r
        | .error e => (false, "Неожиданная ошибка: " ++ e.pyMsg)), [req])
  | .timeout => ((false, "Таймаут запроса (" ++ toString timeout ++ " сек)"), [req])
  | .requestError e => ((false, "Ошибка сети: " ++ e), [req])
  | .otherError e => ((false, "Неожиданная ошибка: " ++ e), [req])

/-- `network.send_request_to_deepseek`. -/
def send_request_to_deepseek (http : HttpRequest → HttpOutcome) (model : Model)
    (prompt : String) (api_key : String) (timeout : Nat) :
    (Bool × String) × List HttpRequest :=
  let req : HttpRequest :=
    { url := model.api_url, headers := auth_headers api_key,
      body := deepseek_data prompt, timeout := timeout }
  match http req with
  | .ok result =>
      ((match extract_chat_content result with
        | .ok r => r
        | .error e => (false, "Неожиданная ошибка: " ++ e.pyMsg)), [req])
  | .timeout => ((false, "Таймаут запроса (" ++ toString timeout ++ " сек)"), [req])
  | .requestError e => ((false, "Ошибка сети: " ++ e), [req])
  | .otherError e => ((false, "Неожиданная ошибка: " ++ e), [req])

/-- `network.send_request_to_groq`. -/
def send_request_to_groq (http : HttpRequest → HttpOutcome) (model : Model)
    (prompt : String) (api_key : String) (timeout : Nat) :
    (Bool × String) × List HttpRequest :=
  let req : HttpRequest :=
    { url := model.api_url, headers := auth_headers api_key,
      body := groq_data model prompt, timeout := timeout }
  match http req with
  | .ok result =>
      ((match extract_chat_content result with
        | .ok r => r
        | .error e => (false, "Неожиданная ошибка: " ++ e.pyMsg)), [req])
  | .timeout => ((false, "Таймаут запроса (" ++ toString timeout ++ " сек)"), [req])
  | .requestError e => ((false, "Ошибка сети: " ++ e), [req])
  | .otherError e => ((false, "Неожиданная ошибка: " ++ e), [req])

/-- `network.send_request_to_generic`. -/
def send_request_to_generic (http : HttpRequest → HttpOutcome) (model : Model)
    (prompt : String) (api_key : String) (timeout : Nat) :
    (Bool × String) × List HttpRequest :=
  let req : HttpRequest :=
    { url := model.api_url, headers := auth_headers api_key,
      body := generic_data model prompt, timeout := timeout }
  match http req with
  | .ok result =>
      ((match extract_generic_content result with
        | .ok r => r
        | .error e => (false, "Неожиданная ошибка: " ++ e.pyMsg)), [req])
  | .timeout => ((false, "Таймаут запроса (" ++ toString timeout ++ " сек)"), [req])
  | .requestError e => ((false, "Ошибка сети: " ++ e), [req])
  | .otherError e => ((false, "Неожиданная ошибка: " ++ e), [req])

/-- `network.send_request_to_model`: resolve the API key (empty string is
falsy, so absent and empty keys both short-circuit), classify the URL and
delegate to the matching sender. -/
def send_request_to_model (env : String → Option String)
    (http : HttpRequest → HttpOutcome) (model : Model) (prompt : String)
    (timeout : Nat) : (Bool × String) × List HttpRequest :=
  let api_key := get_api_key env model.api_id
  if api_key = "" then
    ((false, "API-ключ \x27" ++ model.api_id ++
        "\x27 не найден в переменных окружения"), [])
  else
    let api_type := detect_api_type model.api_url
    if api_type = "openai" then send_request_to_openai http model prompt api_key timeout
    else if api_type = "deepseek" then send_request_to_deepseek http model prompt api_key timeout
    else if api_type = "groq" then send_request_to_groq http model prompt api_key timeout
    else send_request_to_generic http model prompt api_key timeout

/-- One entry of the result list of `send_to_all_models`
(`{'model': ..., 'success': ..., 'response': ...}`). -/
structure DispatchResult where
  model : Model
  success : Bool
  response : String
deriving DecidableEq, Repr

/-- `network.send_to_all_models`: one worker per model; each worker runs
`send_request_to_model` and appends its result dict under the shared lock.
The embedding lists the per-model results in input order; the lock admits any
completion order, so theorems about the dispatcher quantify over an arbitrary
permutation of this list.  The optional per-result callback only performs
external side effects and does not influence the result list. -/
def send_to_all_models (env : String → Option String)
    (http : HttpRequest → HttpOutcome) (models : List Model) (prompt : String)
    (timeout : Nat) : List DispatchResult :=
  models.map (fun model =>
    let r := (send_request_to_model env http model prompt timeout).fst
    { model := model, success := r.fst, response := r.snd })

/-- `detect_api_type` only ever returns one of its four tags. -/
theorem detect_api_type_cases (url : String) :
    detect_api_type url = "openai" ∨ detect_api_type url = "deepseek" ∨
    detect_api_type url = "groq" ∨ detect_api_type url = "generic" := by
  simp only [detect_api_type]
  split_ifs <;> simp

/-- C4: `detect_api_type` is a pure, deterministic, case-insensitive
substring match over the ordered marker list openai.com, deepseek.com,
groq.com, where the first match wins and no match yields 'generic'; the three
example URLs classify as stated, and URLs equal up to case classify
identically. -/
theorem C4_classify_ordered_first_match :
    detect_api_type "https://api.openai.com/v1/chat" = "openai"
  ∧ detect_api_type "https://api.groq.com/x" = "groq"
  ∧ detect_api_type "https://example.com/x" = "generic"
  ∧ (∀ u1 u2 : String, strLower u1 = strLower u2 →
      detect_api_type u1 = detect_api_type u2)
  ∧ (∀ url : String, strContains (strLower url) "openai.com" = true →
      detect_api_type url = "openai")
  ∧ (∀ url : String, strContains (strLower url) "openai.com" = false →
      strContains (strLower url) "deepseek.com" = true →
      detect_api_type url = "deepseek")
  ∧ (∀ url : String, strContains (strLower url) "openai.com" = false →
      strContains (strLower url) "deepseek.com" = false →
      strContains (strLower url) "groq.com" = true →
      detect_api_type url = "groq")
  ∧ (∀ url : String, strContains (strLower url) "openai.com" = false →
      strContains (strLower url) "deepseek.com" = false →
      strContains (strLower url) "groq.com" = false →
      detect_api_type url = "generic") := by
  refine ⟨by decide, by decide, by decide, ?_, ?_, ?_, ?_, ?_⟩
  · intro u1 u2 h
    unfold detect_api_type
    rw [h]
  · intro url h
    simp [detect_api_type, h]
  · intro url h1 h2
    simp [detect_api_type, h1, h2]
  · intro url h1 h2 h3
    simp [detect_api_type, h1, h2, h3]
  · intro url h1 h2 h3
    simp [detect_api_type, h1, h2, h3]

/-- Witness for C4: the deepseek branch at a mixed-case URL. -/
theorem C4_classify_ordered_first_match_witness :
    detect_api_type "https://API.DeepSeek.com/x" = "deepseek" :=
  C4_classify_ordered_first_match.2.2.2.2.2.1 "https://API.DeepSeek.com/x"
    (by decide) (by decide)

/-- C3: when the endpoint's credential identifier resolves to an absent or
empty secret, the worker returns success=false with a message naming the
identifier, and issues no HTTP request at all (empty instrumentation list). -/
theorem C3_missing_credential_short_circuits (env : String → Option String)
    (http : HttpRequest → HttpOutcome) (model : Model) (prompt : String)
    (timeout : Nat) (h : get_api_key env model.api_id = "") :
    send_request_to_model env http model prompt timeout =
      ((false, "API-ключ \x27" ++ model.api_id ++
          "\x27 не найден в переменных окружения"), []) := by
  simp [send_request_to_model, h]

/-- Witness for C3: an unset OPENAI_API_KEY short-circuits before transport. -/
theorem C3_missing_credential_short_circuits_witness :
    send_request_to_model (fun _ => none) (fun _ => HttpOutcome.ok Json.null)
      ⟨1, "GPT-4", "https://api.openai.com/v1/chat", "OPENAI_API_KEY", 1⟩
      "hello" 30 =
      ((false, "API-ключ \x27" ++ "OPENAI_API_KEY" ++
          "\x27 не найден в переменных окружения"), []) :=
  C3_missing_credential_short_circuits (fun _ => none)
    (fun _ => HttpOutcome.ok Json.null)
    ⟨1, "GPT-4", "https://api.openai.com/v1/chat", "OPENAI_API_KEY", 1⟩
    "hello" 30 rfl

/-- C7: every dialect sender maps a transport timeout to success=false with a
message stating the configured timeout value. -/
theorem C7_timeout_names_configured_value (model : Model)
    (prompt api_key : String) (timeout : Nat) :
    (send_request_to_openai (fun _ => HttpOutcome.timeout) model prompt
        api_key timeout).fst =
      (false, "Таймаут запроса (" ++ toString timeout ++ " сек)")
  ∧ (send_request_to_deepseek (fun _ => HttpOutcome.timeout) model prompt
        api_key timeout).fst =
      (false, "Таймаут запроса (" ++ toString timeout ++ " сек)")
  ∧ (send_request_to_groq (fun _ => HttpOutcome.timeout) model prompt
        api_key timeout).fst =
      (false, "Таймаут запроса (" ++ toString timeout ++ " сек)")
  ∧ (send_request_to_generic (fun _ => HttpOutcome.timeout) model prompt
        api_key timeout).fst =
      (false, "Таймаут запроса (" ++ toString timeout ++ " сек)") :=
  ⟨rfl, rfl, rfl, rfl⟩

/-- C9: every dialect's request body carries exactly one user-role message
with the prompt verbatim; temperature is 7/10 for the OpenAI and DeepSeek
bodies and absent from the Groq and Generic bodies. -/
theorem C9_single_turn_verbatim_prompt (m : Model) (prompt : String) :
    (openai_data m prompt).getItemS "messages" =
      .ok (.arr [.obj [("role", .str "user"), ("content", .str prompt)]])
  ∧ (openai_data m prompt).getItemS "temperature" = .ok (.num (7 / 10))
  ∧ (deepseek_data prompt).getItemS "messages" =
      .ok (.arr [.obj [("role", .str "user"), ("content", .str prompt)]])
  ∧ (deepseek_data prompt).getItemS "temperature" = .ok (.num (7 / 10))
  ∧ (groq_data m prompt).getItemS "messages" =
      .ok (.arr [.obj [("role", .str "user"), ("content", .str prompt)]])
  ∧ (groq_data m prompt).hasKey "temperature" = .ok false
  ∧ (generic_data m prompt).getItemS "messages" =
      .ok (.arr [.obj [("role", .str "user"), ("content", .str prompt)]])
  ∧ (generic_data m prompt).hasKey "temperature" = .ok false :=
  ⟨rfl, rfl, rfl, rfl, rfl, rfl, rfl, rfl⟩

/-- Counterexample to C8: substring matching is not done on the display name
itself.  The name "MIXTRAL" contains neither "llama" nor "mixtral", so the
claim picks the documented Groq default 'llama3-8b-8192', yet the adapter
picks 'mixtral-8x7b-32768'; the name "GPT 4" contains neither "gpt-4" nor
"gpt-3.5", so the claim picks 'gpt-3.5-turbo', yet the adapter picks
'gpt-4'. -/
theorem C8_counterexample :
    strContains "MIXTRAL" "llama" = false
  ∧ strContains "MIXTRAL" "mixtral" = false
  ∧ groq_model_id ⟨1, "MIXTRAL", "https://api.groq.com/x", "GROQ_API_KEY", 1⟩ =
      "mixtral-8x7b-32768"
  ∧ strContains "GPT 4" "gpt-4" = false
  ∧ strContains "GPT 4" "gpt-3.5" = false
  ∧ openai_model_id ⟨1, "GPT 4", "https://api.openai.com/v1", "OPENAI_API_KEY", 1⟩ =
      "gpt-4" := by
  decide

/-- C8 (amended): model-id selection matches substrings of the display name
after lowercasing it (and, for the OpenAI-style adapter, replacing spaces by
hyphens): 'gpt-4' wins, then 'gpt-3.5' yields 'gpt-3.5-turbo' with default
'gpt-3.5-turbo'; 'llama' wins with 'llama3-8b-8192', then 'mixtral' yields
'mixtral-8x7b-32768' with default 'llama3-8b-8192'; the Generic adapter uses
the display name verbatim as the model identifier. -/
theorem C8_model_id_heuristic (m : Model) (prompt : String) :
    (strContains (strReplaceChar (strLower m.name) ' ' '-') "gpt-4" = true →
      openai_model_id m = "gpt-4")
  ∧ (strContains (strReplaceChar (strLower m.name) ' ' '-') "gpt-4" = false →
      strContains (strReplaceChar (strLower m.name) ' ' '-') "gpt-3.5" = true →
      openai_model_id m = "gpt-3.5-turbo")
  ∧ (strContains (strReplaceChar (strLower m.name) ' ' '-') "gpt-4" = false →
      strContains (strReplaceChar (strLower m.name) ' ' '-') "gpt-3.5" = false →
      openai_model_id m = "gpt-3.5-turbo")
  ∧ (strContains (strLower m.name) "llama" = true →
      groq_model_id m = "llama3-8b-8192")
  ∧ (strContains (strLower m.name) "llama" = false →
      strContains (strLower m.name) "mixtral" = true →
      groq_model_id m = "mixtral-8x7b-32768")
  ∧ (strContains (strLower m.name) "llama" = false →
      strContains (strLower m.name) "mixtral" = false →
      groq_model_id m = "llama3-8b-8192")
  ∧ (generic_data m prompt).getItemS "model" = .ok (.str m.name) := by
  refine ⟨?_, ?_, ?_, ?_, ?_, ?_, rfl⟩
  · intro h1
    simp [openai_model_id, h1]
  · intro h1 h2
    simp [openai_model_id, h1, h2]
  · intro h1 h2
    simp [openai_model_id, h1, h2]
  · intro h1
    simp [groq_model_id, h1]
  · intro h1 h2
    simp [groq_model_id, h1, h2]
  · intro h1 h2
    simp [groq_model_id, h1, h2]

/-- Witness for C8 (amended): the mixed-case name "Mixtral 8x7B" picks the
Mixtral backend id. -/
theorem C8_model_id_heuristic_witness :
    groq_model_id ⟨1, "Mixtral 8x7B", "https://api.groq.com/x", "GROQ_API_KEY", 1⟩ =
      "mixtral-8x7b-32768" :=
  (C8_model_id_heuristic
      ⟨1, "Mixtral 8x7B", "https://api.groq.com/x", "GROQ_API_KEY", 1⟩
      "p").2.2.2.2.1 (by decide) (by decide)

/-- Counterexample to C1: the OpenAI-style parser does not fall back to the
top-level 'content' field — on the decoded body `{"content":"hi"}` (no
'choices' key) it reports the malformed-response failure rather than
success=true with "hi". -/
theorem C1_counterexample :
    (send_request_to_openai
        (fun _ => HttpOutcome.ok (Json.obj [("content", Json.str "hi")]))
        ⟨1, "GPT-4", "https://api.openai.com/v1/chat", "OPENAI_API_KEY", 1⟩
        "p" "sk" 30).fst = (false, "Неожиданный формат ответа от API")
  ∧ (send_request_to_openai
        (fun _ => HttpOutcome.ok (Json.obj [("content", Json.str "hi")]))
        ⟨1, "GPT-4", "https://api.openai.com/v1/chat", "OPENAI_API_KEY", 1⟩
        "p" "sk" 30).fst ≠ (true, "hi") := by
  refine ⟨rfl, ?_⟩
  decide

/-- C1 (amended): only the Generic parser applies the three-step fallback
chain choices[0].message.content, then top-level 'content', then top-level
'text', first present field winning; the OpenAI-, DeepSeek- and Groq-style
parsers accept only choices[0].message.content and report the
malformed-response failure otherwise.  In particular `{"content":"hi"}`
yields success=true with "hi" for the Generic parser only. -/
theorem C1_generic_only_fallback_chain (s t : String) (m : Model)
    (prompt api_key : String) (timeout : Nat) :
    (send_request_to_generic
        (fun _ => HttpOutcome.ok (Json.obj [("content", Json.str s)]))
        m prompt api_key timeout).fst = (true, s)
  ∧ (send_request_to_openai
        (fun _ => HttpOutcome.ok (Json.obj [("content", Json.str s)]))
        m prompt api_key timeout).fst = (false, "Неожиданный формат ответа от API")
  ∧ (send_request_to_deepseek
        (fun _ => HttpOutcome.ok (Json.obj [("content", Json.str s)]))
        m prompt api_key timeout).fst = (false, "Неожиданный формат ответа от API")
  ∧ (send_request_to_groq
        (fun _ => HttpOutcome.ok (Json.obj [("content", Json.str s)]))
        m prompt api_key timeout).fst = (false, "Неожиданный формат ответа от API")
  ∧ (send_request_to_generic
        (fun _ => HttpOutcome.ok (Json.obj
          [("choices", Json.arr [Json.obj [("message",
              Json.obj [("content", Json.str s)])]]),
           ("content", Json.str t)]))
        m prompt api_key timeout).fst = (true, s)
  ∧ (send_request_to_generic
        (fun _ => HttpOutcome.ok (Json.obj
          [("content", Json.str s), ("text", Json.str t)]))
        m prompt api_key timeout).fst = (true, s)
  ∧ (send_request_to_generic
        (fun _ => HttpOutcome.ok (Json.obj [("text", Json.str t)]))
        m prompt api_key timeout).fst = (true, t)
  ∧ (send_request_to_generic
        (fun _ => HttpOutcome.ok (Json.obj []))
        m prompt api_key timeout).fst = (false, "Неожиданный формат ответа от API")
  ∧ (send_request_to_generic
        (fun _ => HttpOutcome.ok (Json.obj
          [("choices", Json.arr [Json.obj [("message",
              Json.obj [("content", Json.str s)])]])]))
        m prompt api_key timeout).fst = (true, s) :=
  ⟨rfl, rfl, rfl, rfl, rfl, rfl, rfl, rfl, rfl⟩

/-- C10: when the first choice has a 'message' object lacking a 'content'
key, the Generic parser succeeds with the Python stringification of the whole
first choice, not a malformed-response failure. -/
theorem C10_message_without_content_stringifies_choice
    (msgFields : List (String × Json)) (m : Model) (prompt api_key : String)
    (timeout : Nat)
    (h : msgFields.find? (fun p => p.fst == "content") = none) :
    (send_request_to_generic
        (fun _ => HttpOutcome.ok
          (Json.obj [("choices",
            Json.arr [Json.obj [("message", Json.obj msgFields)]])]))
        m prompt api_key timeout).fst
      = (true, (Json.obj [("message", Json.obj msgFields)]).pyStr) := by
  simp [send_request_to_generic, extract_generic_content, Json.hasKey,
    Json.getItemS, Json.getItemI, Json.pyLen, h]

/-- Witness for C10: a choice whose message is `{'role': 'assistant'}`. -/
theorem C10_message_without_content_stringifies_choice_witness :
    (send_request_to_generic
        (fun _ => HttpOutcome.ok
          (Json.obj [("choices",
            Json.arr [Json.obj [("message",
              Json.obj [("role", Json.str "assistant")])]])]))
        ⟨1, "local", "https://example.com/x", "K", 1⟩ "p" "sk" 30).fst
      = (true, (Json.obj [("message",
          Json.obj [("role", Json.str "assistant")])]).pyStr) :=
  C10_message_without_content_stringifies_choice
    [("role", Json.str "assistant")]
    ⟨1, "local", "https://example.com/x", "K", 1⟩ "p" "sk" 30 rfl

/-- C2: whatever completion order the aggregation lock admits, the dispatcher
returns exactly one result per input config, and the multiset (hence set) of
endpoint identities in the results equals that of the input; no ordering
relative to the input is guaranteed. -/
theorem C2_dispatch_one_result_per_endpoint (env : String → Option String)
    (http : HttpRequest → HttpOutcome) (models : List Model) (prompt : String)
    (timeout : Nat) (results : List DispatchResult)
    (hperm : results.Perm (send_to_all_models env http models prompt timeout)) :
    results.length = models.length ∧
    (results.map (fun r => r.model)).Perm models := by
  have hmap : ∀ ms : List Model,
      (send_to_all_models env http ms prompt timeout).map
        (fun r => r.model) = ms := by
    intro ms
    induction ms with
    | nil => rfl
    | cons m rest ih => simpa [send_to_all_models] using ih
  refine ⟨?_, ?_⟩
  · rw [hperm.length_eq]
    simp [send_to_all_models]
  · have hm := hperm.map (fun r => r.model)
    rw [hmap models] at hm
    exact hm

/-- Witness for C2: a two-endpoint dispatch in its own completion order. -/
theorem C2_dispatch_one_result_per_endpoint_witness :
    (send_to_all_models (fun _ => some "sk") (fun _ => HttpOutcome.timeout)
        [⟨1, "A", "https://api.openai.com/v1/chat", "K1", 1⟩,
         ⟨2, "B", "https://example.com/x", "K2", 1⟩] "hello" 30).length =
      ([⟨1, "A", "https://api.openai.com/v1/chat", "K1", 1⟩,
        ⟨2, "B", "https://example.com/x", "K2", 1⟩] : List Model).length
  ∧ ((send_to_all_models (fun _ => some "sk") (fun _ => HttpOutcome.timeout)
        [⟨1, "A", "https://api.openai.com/v1/chat", "K1", 1⟩,
         ⟨2, "B", "https://example.com/x", "K2", 1⟩] "hello" 30).map
      (fun r => r.model)).Perm
      [⟨1, "A", "https://api.openai.com/v1/chat", "K1", 1⟩,
       ⟨2, "B", "https://example.com/x", "K2", 1⟩] :=
  C2_dispatch_one_result_per_endpoint (fun _ => some "sk")
    (fun _ => HttpOutcome.timeout)
    [⟨1, "A", "https://api.openai.com/v1/chat", "K1", 1⟩,
     ⟨2, "B", "https://example.com/x", "K2", 1⟩] "hello" 30
    (send_to_all_models (fun _ => some "sk") (fun _ => HttpOutcome.timeout)
      [⟨1, "A", "https://api.openai.com/v1/chat", "K1", 1⟩,
       ⟨2, "B", "https://example.com/x", "K2", 1⟩] "hello" 30)
    (List.Perm.refl _)

/-- C5: once the credential resolves, every failing exit of the worker —
transport timeout, any other request exception, any other raised exception,
and any exception raised while parsing a decoded 2xx body — collapses to
success=false with a human-readable message; the worker is a total function,
so no exception crosses the dispatcher boundary. -/
theorem C5_worker_never_throws (env : String → Option String) (model : Model)
    (prompt : String) (timeout : Nat) (out : HttpOutcome)
    (hkey : get_api_key env model.api_id ≠ "") :
    (out = HttpOutcome.timeout →
      (send_request_to_model env (fun _ => out) model prompt timeout).fst =
        (false, "Таймаут запроса (" ++ toString timeout ++ " сек)"))
  ∧ (∀ e, out = HttpOutcome.requestError e →
      (send_request_to_model env (fun _ => out) model prompt timeout).fst =
        (false, "Ошибка сети: " ++ e))
  ∧ (∀ e, out = HttpOutcome.otherError e →
      (send_request_to_model env (fun _ => out) model prompt timeout).fst =
        (false, "Неожиданная ошибка: " ++ e))
  ∧ (∀ body perr, out = HttpOutcome.ok body →
      detect_api_type model.api_url ≠ "generic" →
      extract_chat_content body = .error perr →
      (send_request_to_model env (fun _ => out) model prompt timeout).fst =
        (false, "Неожиданная ошибка: " ++ perr.pyMsg))
  ∧ (∀ body perr, out = HttpOutcome.ok body →
      detect_api_type model.api_url = "generic" →
      extract_generic_content body = .error perr →
      (send_request_to_model env (fun _ => out) model prompt timeout).fst =
        (false, "Неожиданная ошибка: " ++ perr.pyMsg)) := by
  have hd := detect_api_type_cases model.api_url
  refine ⟨?_, ?_, ?_, ?_, ?_⟩
  · rintro rfl
    rcases hd with h | h | h | h <;>
      simp [send_request_to_model, send_request_to_openai,
        send_request_to_deepseek, send_request_to_groq,
        send_request_to_generic, hkey, h]
  · rintro e rfl
    rcases hd with h | h | h | h <;>
      simp [send_request_to_model, send_request_to_openai,
        send_request_to_deepseek, send_request_to_groq,
        send_request_to_generic, hkey, h]
  · rintro e rfl
    rcases hd with h | h | h | h <;>
      simp [send_request_to_model, send_request_to_openai,
        send_request_to_deepseek, send_request_to_groq,
        send_request_to_generic, hkey, h]
  · rintro body perr rfl hng hcc
    rcases hd with h | h | h | h <;> first
      | exact absurd h hng
      | simp [send_request_to_model, send_request_to_openai,
          send_request_to_deepseek, send_request_to_groq,
          hkey, h, hcc]
  · rintro body perr rfl hg hgc
    simp [send_request_to_model, send_request_to_generic, hkey, hg, hgc]

/-- Witness for C5: a timing-out OpenAI-style endpoint with a present key. -/
theorem C5_worker_never_throws_witness :
    (send_request_to_model (fun _ => some "sk") (fun _ => HttpOutcome.timeout)
        ⟨1, "GPT-4", "https://api.openai.com/v1/chat", "OPENAI_API_KEY", 1⟩
        "p" 30).fst =
      (false, "Таймаут запроса (" ++ toString 30 ++ " сек)") :=
  (C5_worker_never_throws (fun _ => some "sk")
      ⟨1, "GPT-4", "https://api.openai.com/v1/chat", "OPENAI_API_KEY", 1⟩
      "p" 30 HttpOutcome.timeout (by decide)).1 rfl

/-- C6: on a 2xx response whose decoded body has none of the recognized
fields (no 'choices', no 'content', no 'text'), every dialect's sender
reports the parsing failure message "Неожиданный формат ответа от API"
("unexpected response format"), not a network failure. -/
theorem C6_malformed_is_parsing_failure (body : Json) (model : Model)
    (prompt api_key : String) (timeout : Nat)
    (h1 : body.hasKey "choices" = Except.ok false)
    (h2 : body.hasKey "content" = Except.ok false)
    (h3 : body.hasKey "text" = Except.ok false) :
    (send_request_to_openai (fun _ => HttpOutcome.ok body) model prompt
        api_key timeout).fst = (false, "Неожиданный формат ответа от API")
  ∧ (send_request_to_deepseek (fun _ => HttpOutcome.ok body) model prompt
        api_key timeout).fst = (false, "Неожиданный формат ответа от API")
  ∧ (send_request_to_groq (fun _ => HttpOutcome.ok body) model prompt
        api_key timeout).fst = (false, "Неожиданный формат ответа от API")
  ∧ (send_request_to_generic (fun _ => HttpOutcome.ok body) model prompt
        api_key timeout).fst = (false, "Неожиданный формат ответа от API") := by
  refine ⟨?_, ?_, ?_, ?_⟩ <;>
    simp [send_request_to_openai, send_request_to_deepseek,
      send_request_to_groq, send_request_to_generic, extract_chat_content,
      extract_generic_content, extract_generic_fallback, h1, h2, h3]

/-- Witness for C6: the empty object body `{}`. -/
theorem C6_malformed_is_parsing_failure_witness :
    (send_request_to_openai (fun _ => HttpOutcome.ok (Json.obj []))
        ⟨1, "GPT-4", "https://api.openai.com/v1/chat", "K", 1⟩
        "p" "sk" 30).fst = (false, "Неожиданный формат ответа от API") :=
  (C6_malformed_is_parsing_failure (Json.obj [])
      ⟨1, "GPT-4", "https://api.openai.com/v1/chat", "K", 1⟩
      "p" "sk" 30 rfl rfl rfl).1
